import Mathlib

/-!
Verification development for the Xnake anti-cheat server.

The definitions below are shallow embeddings of the JavaScript source:
- the deterministic replay engine and the rule detectors of the ML server
  (`src/unnamed/part_009`, the `server.js` variant wired to the ML pipeline),
- the legacy replay engine of `src/server.js`,
- the edge-case arbiter (`src/ml/edgecases.js`),
- the training worker and model versioning (`src/unnamed/part_005`,
  i.e. `ml/worker.js` and `ml/versioning.js`),
- the `avg_speed_per_food` feature of `src/ml/features.js`.

JavaScript numbers are modelled as rationals (`ℚ`); counters and frame
numbers that the source only ever holds as non-negative integers are
modelled as `ℕ`.  The seeded random generator `seededRandom` computes
`fract(sin(n) * 10000)` with IEEE doubles; it is modelled as an abstract
parameter `rng : ℤ → ℚ`, and every theorem quantifies over it (or fixes a
concrete instance), so no property below depends on the value of `sin`.
-/

namespace Xnake

/-- A grid cell or direction vector, `{x, y}` in the source. -/
structure Pos where
  x : ℤ
  y : ℤ
  deriving DecidableEq, Repr, Inhabited

/-- One parsed move `{d, f, t}` (direction, frame, time in ms),
`src/unnamed/part_009` line 15. -/
structure Move where
  d : ℤ
  f : ℤ
  t : ℚ
  deriving DecidableEq, Repr, Inhabited

/-- `directions[d]` of `validateGameReplay` (`part_009` lines 399-404):
an out-of-range index yields `undefined` in JS, modelled as `none`. -/
def dirOf (d : ℤ) : Option Pos :=
  if d = 0 then some ⟨0, -1⟩
  else if d = 1 then some ⟨1, 0⟩
  else if d = 2 then some ⟨0, 1⟩
  else if d = 3 then some ⟨-1, 0⟩
  else none

/-- `GRID_SIZE` (`part_009` line 350). -/
def GRID_SIZE : ℤ := 30

/-- `isPositionOnSnake` (`part_009` lines 336-338). -/
def isPositionOnSnake (pos : Pos) (snakeBody : List Pos) : Bool :=
  snakeBody.any (fun seg => seg.x = pos.x && seg.y = pos.y)

/-- The food candidate computed at a given `attempts` value inside
`spawnFood` (`part_009` lines 382-388). -/
def foodCandidate (rng : ℤ → ℚ) (seed : ℤ) (foodEaten : ℕ) (attempts : ℕ) : Pos :=
  ⟨⌊rng (seed + foodEaten + attempts) * GRID_SIZE⌋,
   ⌊rng (seed + foodEaten + attempts + 1) * GRID_SIZE⌋⟩

/-- The do/while retry loop of `spawnFood`: after computing the candidate at
`attempts = k` the source increments `attempts` and retries while the cell is
on the snake and `attempts < maxAttempts` (`maxAttempts = GRID_SIZE²`).
`fuel` counts the retries still allowed. -/
def spawnFoodAux (rng : ℤ → ℚ) (seed : ℤ) (foodEaten : ℕ) (snake : List Pos) :
    ℕ → ℕ → Pos
  | k, 0 => foodCandidate rng seed foodEaten k
  | k, fuel + 1 =>
    let f := foodCandidate rng seed foodEaten k
    if isPositionOnSnake f snake ∧ k + 1 < 900 then
      spawnFoodAux rng seed foodEaten snake (k + 1) fuel
    else f

/-- `spawnFood` (`part_009` lines 376-392). -/
def spawnFood (rng : ℤ → ℚ) (seed : ℤ) (foodEaten : ℕ) (snake : List Pos) : Pos :=
  spawnFoodAux rng seed foodEaten snake 0 900

/-- The mutable state of the replay loop in `validateGameReplay`
(`part_009` lines 362-397). -/
structure ReplayState where
  snake : List Pos
  direction : Pos
  score : ℕ
  foodEaten : ℕ
  currentSpeed : ℕ
  food : Pos
  moveIndex : ℕ
  frameCount : ℕ
  simulatedTime : ℕ
  deriving DecidableEq, Repr

/-- Outcome of one iteration of the frame loop: continue, break out of the
loop, or return early with the `foodEaten > 1000` defensive failure. -/
inductive StepOut where
  | cont (s : ReplayState)
  | stop (s : ReplayState)
  | bad (s : ReplayState)
  deriving DecidableEq, Repr

/-- One iteration of the `while (frameCount < maxFrames)` loop of
`validateGameReplay` (`part_009` lines 417-500): advance the clock, apply the
scheduled move unless it reverses the direction, move the head, detect wall
and self collisions, eat food or pop the tail, enforce the food bound and the
10000-frame safety break. -/
def replayStep (rng : ℤ → ℚ) (seed : ℤ) (moves : List Move) (s : ReplayState) :
    StepOut :=
  let fc := s.frameCount + 1
  let st := s.simulatedTime + s.currentSpeed
  let dm : Pos × ℕ :=
    match moves.get? s.moveIndex with
    | some m =>
      if m.f = (fc : ℤ) then
        (match dirOf m.d with
         | some nd =>
           if nd.x = -s.direction.x ∧ nd.y = -s.direction.y then s.direction else nd
         | none => s.direction, s.moveIndex + 1)
      else (s.direction, s.moveIndex)
    | none => (s.direction, s.moveIndex)
  let dir := dm.1
  let mi := dm.2
  let head : Pos := ⟨s.snake.headI.x + dir.x, s.snake.headI.y + dir.y⟩
  if head.x < 0 ∨ GRID_SIZE ≤ head.x ∨ head.y < 0 ∨ GRID_SIZE ≤ head.y then
    .stop { s with direction := dir, moveIndex := mi, frameCount := fc,
                   simulatedTime := st }
  else if head ∈ s.snake then
    .stop { s with direction := dir, moveIndex := mi, frameCount := fc,
                   simulatedTime := st }
  else
    let snake1 := head :: s.snake
    let s1 : ReplayState :=
      if head = s.food then
        { s with snake := snake1, direction := dir, moveIndex := mi,
                 frameCount := fc, simulatedTime := st,
                 score := s.score + 10, foodEaten := s.foodEaten + 1,
                 food := spawnFood rng seed (s.foodEaten + 1) snake1,
                 currentSpeed :=
                   if 50 < s.currentSpeed then s.currentSpeed - 3
                   else s.currentSpeed }
      else
        { s with snake := snake1.dropLast, direction := dir, moveIndex := mi,
                 frameCount := fc, simulatedTime := st }
    if 1000 < s1.foodEaten then .bad s1
    else if 10000 ≤ fc then .stop s1
    else .cont s1

/-- Result of running the frame loop to completion: either a normal exit or
the early `Too many food eaten` return. -/
inductive LoopResult where
  | finished (s : ReplayState)
  | tooManyFood (s : ReplayState)
  deriving DecidableEq, Repr

/-- The frame loop itself.  `fuel` equals `maxFrames - frameCount`, which is
exactly the number of iterations the `while` guard still allows, so the
fuelled recursion computes the same result as the source loop. -/
def runLoop (rng : ℤ → ℚ) (seed : ℤ) (moves : List Move) (maxFrames : ℕ) :
    ℕ → ReplayState → LoopResult
  | 0, s => .finished s
  | fuel + 1, s =>
    if s.frameCount < maxFrames then
      match replayStep rng seed moves s with
      | .cont s1 => runLoop rng seed moves maxFrames fuel s1
      | .stop s1 => .finished s1
      | .bad s1 => .tooManyFood s1
    else .finished s

/-- The initial replay state (`part_009` lines 362-397): three snake cells
ending at the center, moving right, speed 150, first food spawned via the
seeded RNG. -/
def initialReplayState (rng : ℤ → ℚ) (seed : ℤ) : ReplayState :=
  let center : ℤ := 15
  let snake : List Pos := [⟨center, center⟩, ⟨center - 1, center⟩, ⟨center - 2, center⟩]
  { snake := snake, direction := ⟨1, 0⟩, score := 0, foodEaten := 0,
    currentSpeed := 150, food := spawnFood rng seed 0 snake,
    moveIndex := 0, frameCount := 0, simulatedTime := 0 }

/-- `maxFrames = totalFrames ? totalFrames + 10 : 10000` (`part_009` line
415): JavaScript truthiness makes `totalFrames = 0` (or absent) fall to the
10000 default. -/
def maxFramesOf (totalFrames : ℕ) : ℕ :=
  if totalFrames = 0 then 10000 else totalFrames + 10

/-- Run the whole simulation loop of `validateGameReplay`. -/
def replayRun (rng : ℤ → ℚ) (seed : ℤ) (moves : List Move) (totalFrames : ℕ) :
    LoopResult :=
  runLoop rng seed moves (maxFramesOf totalFrames) (maxFramesOf totalFrames)
    (initialReplayState rng seed)

/-- State carried by a step outcome. -/
def StepOut.state : StepOut → ReplayState
  | .cont s => s
  | .stop s => s
  | .bad s => s

/-- Final state carried by a loop result. -/
def LoopResult.state : LoopResult → ReplayState
  | .finished s => s
  | .tooManyFood s => s

/-- Number of loop iterations executed (the final `frameCount`; it starts at
0 and each iteration increments it exactly once). -/
def framesExecuted (rng : ℤ → ℚ) (seed : ℤ) (moves : List Move)
    (totalFrames : ℕ) : ℕ :=
  (replayRun rng seed moves totalFrames).state.frameCount

/-- Verdict of `validateGameReplay`, in the order the source tests the
conditions (`part_009` lines 487-556). -/
inductive ReplayVerdict where
  | tooManyFood
  | scoreMismatch
  | foodMismatch
  | durationMismatch
  | ok
  deriving DecidableEq, Repr

/-- `validateGameReplay` of `part_009` (lines 349-557): run the simulation,
then check score (tolerance 20 iff replayed `foodEaten ≤ 2`), food count
(exact) and duration (`|simulatedDuration - gameDuration|` at most
`max(10, gameDuration * 0.20)`), in that order. -/
def validateGameReplay (rng : ℤ → ℚ) (seed : ℤ) (moves : List Move)
    (expectedScore expectedFoodEaten gameDuration : ℚ) (totalFrames : ℕ) :
    ReplayVerdict :=
  match replayRun rng seed moves totalFrames with
  | .tooManyFood _ => .tooManyFood
  | .finished s =>
    let simulatedDuration : ℕ := s.simulatedTime / 1000
    let scoreDiff : ℚ := |(s.score : ℚ) - expectedScore|
    let scoreTolerance : ℚ := if s.foodEaten ≤ 2 then 20 else 0
    if scoreDiff > scoreTolerance then .scoreMismatch
    else if |(s.foodEaten : ℚ) - expectedFoodEaten| > 0 then .foodMismatch
    else if |(simulatedDuration : ℚ) - gameDuration| >
              max 10 (gameDuration * (1/5)) then .durationMismatch
    else .ok

/-- The simulated duration (`Math.floor(simulatedTime / 1000)`) computed by
the `part_009` replay. -/
def replaySimulatedDuration (rng : ℤ → ℚ) (seed : ℤ) (moves : List Move)
    (totalFrames : ℕ) : ℕ :=
  (replayRun rng seed moves totalFrames).state.simulatedTime / 1000

/-- The post-hoc duration recomputation of the legacy `src/server.js`
replay engine (lines 196-209): it replays `frameCount` ticks of the speed
schedule, decrementing the speed once per food eaten at the front of the
run.  One recursive call per frame, accumulator style. -/
def legacySimTimeAux (foodEaten : ℕ) :
    ℕ → ℕ → ℕ → ℕ → ℕ
  | 0, _, _, acc => acc
  | frames + 1, tempSpeed, tempFoodCount, acc =>
    let acc1 := acc + tempSpeed
    if tempFoodCount < foodEaten then
      legacySimTimeAux foodEaten frames
        (if 50 < tempSpeed then tempSpeed - 3 else tempSpeed)
        (tempFoodCount + 1) acc1
    else
      legacySimTimeAux foodEaten frames tempSpeed tempFoodCount acc1

/-- `simulatedTime` as recomputed by the legacy `src/server.js` engine:
start from `INITIAL_SPEED = 150` and apply the approximate schedule. -/
def legacySimTime (frameCount foodEaten : ℕ) : ℕ :=
  legacySimTimeAux foodEaten frameCount 150 0 0

/-- `validateGameReplay` of the legacy `src/server.js` (lines 38-270).  The
frame loop is identical to the `part_009` one (the in-loop `simulatedTime`
accumulator is simply unused here); the duration is recomputed after the
loop and checked against `max(5, gameDuration * 0.15)` instead of
`max(10, gameDuration * 0.20)`. -/
def legacyValidateGameReplay (rng : ℤ → ℚ) (seed : ℤ) (moves : List Move)
    (expectedScore expectedFoodEaten gameDuration : ℚ) (totalFrames : ℕ) :
    ReplayVerdict :=
  match replayRun rng seed moves totalFrames with
  | .tooManyFood _ => .tooManyFood
  | .finished s =>
    let simulatedDuration : ℕ := legacySimTime s.frameCount s.foodEaten / 1000
    let scoreDiff : ℚ := |(s.score : ℚ) - expectedScore|
    let scoreTolerance : ℚ := if s.foodEaten ≤ 2 then 20 else 0
    if scoreDiff > scoreTolerance then .scoreMismatch
    else if |(s.foodEaten : ℚ) - expectedFoodEaten| > 0 then .foodMismatch
    else if |(simulatedDuration : ℚ) - gameDuration| >
              max 5 (gameDuration * (3/20)) then .durationMismatch
    else .ok

/-- The simulated duration computed by the legacy `src/server.js` engine
for given inputs: run the (shared) frame loop, then recompute the clock
from the final frame and food counts. -/
def legacySimulatedDuration (rng : ℤ → ℚ) (seed : ℤ) (moves : List Move)
    (totalFrames : ℕ) : ℕ :=
  legacySimTime (replayRun rng seed moves totalFrames).state.frameCount
    (replayRun rng seed moves totalFrames).state.foodEaten / 1000

/-- The duration-acceptance predicate the specification states for the
replay engine: written from the spec's words (`max(10 s, duration × 0.20)`),
to be compared with what each engine implements. -/
def specDurationAccepted (simulatedDuration gameDuration : ℚ) : Prop :=
  |simulatedDuration - gameDuration| ≤ max 10 (gameDuration * (1/5))

instance (a b : ℚ) : Decidable (specDurationAccepted a b) := by
  unfold specDurationAccepted; infer_instance

/- ## Rule detectors of the ML server (`part_009`) -/

/-- `detectPauseAbuse` (`part_009` lines 176-205): `hasPause` is true iff
some consecutive pair of moves is more than 10000 ms apart. -/
def detectPauseAbuse (moves : List Move) : Bool :=
  (moves.zip moves.tail).any (fun p => 10000 < p.2.t - p.1.t)

/-- `detectBotUsage` (`part_009` lines 305-329): fires iff `foodEaten` is
truthy (non-zero) and `score > 1000` and `moves.length / foodEaten > 4.0`. -/
def detectBotUsage (moves : List Move) (foodEaten score : ℚ) : Bool :=
  if foodEaten = 0 then false
  else decide (1000 < score ∧ 4 < (moves.length : ℚ) / foodEaten)

/-- One parsed heartbeat `t,p,f,s` (wall delta, monotonic delta, frame,
speed), as consumed by `validateHeartbeats`.  Only numeric heartbeats are
modelled; the optional trailing score field is unused by the checks. -/
structure Heartbeat where
  t : ℚ
  p : ℚ
  f : ℚ
  s : ℚ
  deriving DecidableEq, Repr, Inhabited

/-- The pairwise timing issue of `validateHeartbeats` (`part_009` lines
230-250): observed delta differs from `frameDelta × avgSpeed` by more than
`max(200, expected × 0.3)`. -/
def heartbeatPairIssue (a b : Heartbeat) : Bool :=
  let expectedTime := (b.f - a.f) * ((b.s + a.s) / 2)
  decide (max 200 (expectedTime * (3/10)) < |(b.t - a.t) - expectedTime|)

/-- `validateHeartbeats` (`part_009` lines 213-297), returning the pair
`(valid, suspicious)`.  Fewer than 2 heartbeats short-circuits to
`(false, true)` — `reason: 'Insufficient heartbeat data'`.  Otherwise the
issues are: pairwise timing anomalies, wall-vs-monotonic divergence over
5000 ms, and a global ms-per-frame below 40 (with more than 100 frames) or
above 200.  The global average divides by the heartbeat frame span; when
that span is zero, JavaScript produces `±Infinity`/`NaN`, so the comparisons
reduce to the sign of the elapsed time, which is what the `else` branches of
the two `if`s below encode. -/
def validateHeartbeats (heartbeats : List Heartbeat) : Bool × Bool :=
  if heartbeats.length < 2 then (false, true)
  else
    let pairIssues := (heartbeats.zip heartbeats.tail).countP
      (fun p => heartbeatPairIssue p.1 p.2)
    let driftIssues := heartbeats.countP (fun h => decide (5000 < |h.t - h.p|))
    let firstHB := heartbeats.headI
    let lastHB := heartbeats.getLastI
    let totalTime := lastHB.t - firstHB.t
    let totalFramesInHB := lastHB.f - firstHB.f
    let tooSlow : Bool :=
      if totalFramesInHB = 0 then decide (0 < totalTime)
      else decide (200 < totalTime / totalFramesInHB)
    let tooFast : Bool :=
      (if totalFramesInHB = 0 then decide (totalTime < 0)
       else decide (totalTime / totalFramesInHB < 40)) &&
      decide (100 < lastHB.f)
    let issues := pairIssues + driftIssues +
      (if tooSlow then 1 else 0) + (if tooFast then 1 else 0)
    (issues = 0, 0 < issues)

/- ## Edge-case arbiter (`src/ml/edgecases.js`) -/

/-- The four edge-case classifications. -/
inductive EdgeType where
  | rules_positive_ml_negative
  | rules_negative_ml_positive
  | ml_uncertain_rules_positive
  | ml_uncertain_rules_negative
  deriving DecidableEq, Repr

/-- Result of `detectEdgeCase`. -/
structure EdgeResult where
  isEdgeCase : Bool
  edgeType : Option EdgeType
  shouldFlag : Bool
  deriving DecidableEq, Repr

/-- `detectEdgeCase` (`src/ml/edgecases.js` lines 26-64), with
`ML_THRESHOLD_LOW = 0.3` and `ML_THRESHOLD_HIGH = 0.7`, in the source's
branch order. -/
def detectEdgeCase (rulesDetectedCheat : Bool) (mlProbability : ℚ) : EdgeResult :=
  if rulesDetectedCheat ∧ mlProbability < 3/10 then
    ⟨true, some .rules_positive_ml_negative, false⟩
  else if ¬rulesDetectedCheat ∧ 7/10 < mlProbability then
    ⟨true, some .rules_negative_ml_positive, true⟩
  else if rulesDetectedCheat ∧ 3/10 ≤ mlProbability ∧ mlProbability ≤ 7/10 then
    ⟨true, some .ml_uncertain_rules_positive, false⟩
  else if ¬rulesDetectedCheat ∧ 3/10 ≤ mlProbability ∧ mlProbability ≤ 7/10 then
    ⟨true, some .ml_uncertain_rules_negative, true⟩
  else ⟨false, none, false⟩

/- ## The `/api/score` submission pipeline (`part_009` lines 730-1160) -/

/-- The cheat kinds recorded by `cheaterOps.record`. -/
inductive CheatKind where
  | score_mismatch
  | speed_hack
  | invalid_session
  | missing_moves
  | timing_manipulation
  | pause_abuse
  | replay_fail
  | bot_usage
  deriving DecidableEq, Repr

/-- The handler's decision: accept onto the leaderboard, reject with a
recorded cheat, or reject a malformed field (4xx, no cheat record). -/
inductive Decision where
  | accepted
  | rejectedCheat (kind : CheatKind)
  | rejectedValidation
  deriving DecidableEq, Repr

/-- A parsed score submission.  `moves = none` models an absent, non-string
or empty `moves` field (the `!moves || typeof moves !== 'string' ||
moves === ''` test); `moves = some l` models a present move string parsing
to `l`.  `heartbeats` is the parsed heartbeat log; a non-empty list models a
non-empty heartbeat string.  `totalFrames = none` models an absent field.
The authentication, fingerprint, rate-limit and payload-size guards sit
before the stages modelled here and are orthogonal to every claim. -/
structure Submission where
  score : ℚ
  speedLevel : ℚ
  gameDuration : ℚ
  foodEaten : ℚ
  seed : ℤ
  moves : Option (List Move)
  totalFrames : Option ℕ
  heartbeats : List Heartbeat

/-- Field validation ahead of the detectors (`part_009` lines 751-767):
negative or out-of-range score, out-of-range `totalFrames`. -/
def failsFieldValidation (sub : Submission) : Prop :=
  sub.score < 0 ∨ 10000 < sub.score ∨
    (match sub.totalFrames with
     | some tf => 10000 < tf
     | none => False)

instance (sub : Submission) : Decidable (failsFieldValidation sub) := by
  unfold failsFieldValidation
  exact match sub.totalFrames with
  | some _ => inferInstanceAs (Decidable (_ ∨ _ ∨ _))
  | none => inferInstanceAs (Decidable (_ ∨ _ ∨ _))

/-- The early score-vs-food check (`part_009` lines 774-785): inside
`if (foodEaten)` — skipped entirely when `foodEaten` is falsy — the score is
compared exactly, `foodEaten * 10 !== score`, with no tolerance. -/
def earlyScoreMismatch (sub : Submission) : Prop :=
  sub.foodEaten ≠ 0 ∧ sub.foodEaten * 10 ≠ sub.score

instance (sub : Submission) : Decidable (earlyScoreMismatch sub) :=
  inferInstanceAs (Decidable (_ ∧ _))

/-- The early score-vs-food check as the specification words it: reject iff
the score differs from `foodEaten × 10` by more than the tolerance, the
tolerance being 20 when `foodEaten ≤ 2` and 0 otherwise.  Written from the
spec, for comparison with `earlyScoreMismatch`. -/
def specEarlyScoreMismatch (foodEaten score : ℚ) : Prop :=
  (if foodEaten ≤ 2 then (20:ℚ) else 0) < |score - foodEaten * 10|

instance (f s : ℚ) : Decidable (specEarlyScoreMismatch f s) := by
  unfold specEarlyScoreMismatch; infer_instance

/-- The speed-floor check (`part_009` lines 787-807): fires iff
`gameDuration` is truthy, `speedLevel > 5` and
`gameDuration < speedLevel * 1.5`. -/
def speedFloorFails (sub : Submission) : Prop :=
  sub.gameDuration ≠ 0 ∧ 5 < sub.speedLevel ∧
    sub.gameDuration < sub.speedLevel * (3/2)

instance (sub : Submission) : Decidable (speedFloorFails sub) :=
  inferInstanceAs (Decidable (_ ∧ _ ∧ _))

/-- The heartbeat gate plus detector outcome as used by the handler
(`part_009` lines 883-928): a non-empty heartbeat string with `score > 100`
runs `validateHeartbeats`, and `!valid || suspicious` rejects. -/
def heartbeatStageFires (sub : Submission) : Prop :=
  sub.heartbeats ≠ [] ∧ 100 < sub.score ∧
    (¬(validateHeartbeats sub.heartbeats).1 = true ∨
      (validateHeartbeats sub.heartbeats).2 = true)

instance (sub : Submission) : Decidable (heartbeatStageFires sub) :=
  inferInstanceAs (Decidable (_ ∧ _ ∧ _))

/-- The full `/api/score` handler from field validation onward
(`part_009` lines 751-1160), for an authenticated player whose
fingerprint and rate limit pass.  `sessionSeed` is the seed of the player's
live `GameSession`, if any; `mlProbability` is the probability the ML
predictor would return (`none` models "no model available" or a prediction
error, both swallowed).  Returns the decision together with the edge-case
record the ML shadow stage appends (the ML block contains no `return`:
it only logs). -/
def scorePipeline (sub : Submission) (sessionSeed : Option ℤ) (rng : ℤ → ℚ)
    (mlProbability : Option ℚ) : Decision × Option EdgeResult :=
  if failsFieldValidation sub then (.rejectedValidation, none)
  else if earlyScoreMismatch sub then (.rejectedCheat .score_mismatch, none)
  else if speedFloorFails sub then (.rejectedCheat .speed_hack, none)
  else if sessionSeed ≠ some sub.seed then (.rejectedCheat .invalid_session, none)
  else
    match sub.moves with
    | none =>
      if 0 < sub.score then (.rejectedCheat .missing_moves, none)
      else (.accepted, none)
    | some mv =>
      if heartbeatStageFires sub then (.rejectedCheat .timing_manipulation, none)
      else if detectPauseAbuse mv then (.rejectedCheat .pause_abuse, none)
      else if validateGameReplay rng sub.seed mv sub.score sub.foodEaten
                sub.gameDuration (sub.totalFrames.getD 0) ≠ .ok then
        (.rejectedCheat .replay_fail, none)
      else if detectBotUsage mv sub.foodEaten sub.score then
        (.rejectedCheat .bot_usage, none)
      else
        (.accepted,
         if 50 ≤ sub.score then mlProbability.map (detectEdgeCase false)
         else none)

/-- First firing stage of an ordered detector list: `none` entries abstain,
the first `some` decision wins, and an empty list accepts. -/
def firstHit : List (Option Decision) → Decision
  | [] => .accepted
  | some d :: _ => d
  | none :: rest => firstHit rest

/-- The detector stages in the order the `part_009` handler actually runs
them: validation, score-vs-food, speed floor, session seed, the
missing-moves gate, heartbeat consistency, pause abuse, replay, and the bot
heuristic last. -/
def stagesActual (sub : Submission) (sessionSeed : Option ℤ) (rng : ℤ → ℚ) :
    List (Option Decision) :=
  [if failsFieldValidation sub then some .rejectedValidation else none,
   if earlyScoreMismatch sub then some (.rejectedCheat .score_mismatch) else none,
   if speedFloorFails sub then some (.rejectedCheat .speed_hack) else none,
   if sessionSeed ≠ some sub.seed then some (.rejectedCheat .invalid_session) else none] ++
  match sub.moves with
  | none =>
    [some (if 0 < sub.score then .rejectedCheat .missing_moves else .accepted)]
  | some mv =>
    [if heartbeatStageFires sub then some (.rejectedCheat .timing_manipulation) else none,
     if detectPauseAbuse mv then some (.rejectedCheat .pause_abuse) else none,
     if validateGameReplay rng sub.seed mv sub.score sub.foodEaten
          sub.gameDuration (sub.totalFrames.getD 0) ≠ .ok then
       some (.rejectedCheat .replay_fail) else none,
     if detectBotUsage mv sub.foodEaten sub.score then
       some (.rejectedCheat .bot_usage) else none]

/-- The detector order the specification claims: score-vs-food, speed
floor, session seed, pause-abuse, bot heuristic, heartbeat consistency,
and replay as the final rule.  Written from the spec's words, for
comparison with `stagesActual`. -/
def stagesClaimed (sub : Submission) (sessionSeed : Option ℤ) (rng : ℤ → ℚ) :
    List (Option Decision) :=
  [if failsFieldValidation sub then some .rejectedValidation else none,
   if earlyScoreMismatch sub then some (.rejectedCheat .score_mismatch) else none,
   if speedFloorFails sub then some (.rejectedCheat .speed_hack) else none,
   if sessionSeed ≠ some sub.seed then some (.rejectedCheat .invalid_session) else none] ++
  match sub.moves with
  | none =>
    [some (if 0 < sub.score then .rejectedCheat .missing_moves else .accepted)]
  | some mv =>
    [if detectPauseAbuse mv then some (.rejectedCheat .pause_abuse) else none,
     if detectBotUsage mv sub.foodEaten sub.score then
       some (.rejectedCheat .bot_usage) else none,
     if heartbeatStageFires sub then some (.rejectedCheat .timing_manipulation) else none,
     if validateGameReplay rng sub.seed mv sub.score sub.foodEaten
          sub.gameDuration (sub.totalFrames.getD 0) ≠ .ok then
       some (.rejectedCheat .replay_fail) else none]

/- ## Training worker (`part_005`, `ml/worker.js`) -/

/-- `DEBOUNCE_MS = 5 * 60 * 1000`. -/
def DEBOUNCE_MS : ℕ := 300000

/-- The worker's module state: the `trainingInProgress` and
`pendingTrainingRequest` booleans and `lastTrainingTime`, together with the
pending `setTimeout` follow-up (scheduled for a given time, if any) and two
run counters used to state the concurrency properties: `runsActive` counts
`train()` calls started but not yet completed, `runsStarted` counts all
starts. -/
structure WorkerState where
  inProgress : Bool
  pending : Bool
  lastTrainingTime : ℕ
  followupAt : Option ℕ
  runsActive : ℕ
  runsStarted : ℕ
  deriving DecidableEq, Repr

/-- The initial module state (`part_005` lines 9-11). -/
def initialWorkerState : WorkerState :=
  { inProgress := false, pending := false, lastTrainingTime := 0,
    followupAt := none, runsActive := 0, runsStarted := 0 }

/-- `canTriggerTraining` (`part_005` lines 25-29):
`now - lastTrainingTime >= DEBOUNCE_MS && !trainingInProgress`.  (With `ℕ`
subtraction a clock behind `lastTrainingTime` gives 0, matching the
JavaScript negative difference failing the `>=`.) -/
def canTriggerTraining (now : ℕ) (s : WorkerState) : Bool :=
  decide (DEBOUNCE_MS ≤ now - s.lastTrainingTime) && !s.inProgress

/-- The head of `runTraining` (`part_005` lines 34-42) when the run actually
starts: set `trainingInProgress`, stamp `lastTrainingTime`, launch
`train()`. -/
def startRun (now : ℕ) (s : WorkerState) : WorkerState :=
  { s with inProgress := true, lastTrainingTime := now,
           runsActive := s.runsActive + 1, runsStarted := s.runsStarted + 1 }

/-- A training request (`triggerTraining` / `onCheatDetected`, `part_005`
lines 139-172): if `canTriggerTraining` the run starts (and `runTraining`'s
own in-progress guard cannot fire, since `canTriggerTraining` implies
`!trainingInProgress`); otherwise only `pendingTrainingRequest` is set. -/
def requestStep (now : ℕ) (s : WorkerState) : WorkerState :=
  if canTriggerTraining now s then startRun now s
  else { s with pending := true }

/-- Completion of the running `train()` — the `finally` block of
`runTraining` (`part_005` lines 121-133): clear `trainingInProgress`; if a
request is pending, clear the flag and schedule the follow-up `setTimeout`
1000 ms later.  A completion with no run in flight is a no-op. -/
def completeStep (now : ℕ) (s : WorkerState) : WorkerState :=
  if s.inProgress then
    let s1 := { s with inProgress := false, runsActive := s.runsActive - 1 }
    if s1.pending then
      { s1 with pending := false, followupAt := some (now + 1000) }
    else s1
  else s

/-- The follow-up `setTimeout` callback firing (`part_005` lines 127-131):
when due, it runs `runTraining()` only `if (canTriggerTraining())`;
otherwise the callback returns and the request is gone. -/
def followupStep (now : ℕ) (s : WorkerState) : WorkerState :=
  match s.followupAt with
  | some due =>
    if due ≤ now then
      let s1 := { s with followupAt := none }
      if canTriggerTraining now s1 then startRun now s1 else s1
    else s
  | none => s

/-- Events of the worker's single-threaded event loop. -/
inductive WorkerEvent where
  | request (now : ℕ)
  | complete (now : ℕ)
  | followup (now : ℕ)
  deriving DecidableEq, Repr

/-- Apply one event. -/
def workerStep (s : WorkerState) : WorkerEvent → WorkerState
  | .request now => requestStep now s
  | .complete now => completeStep now s
  | .followup now => followupStep now s

/-- Run a sequence of worker events from the initial module state. -/
def runWorker (events : List WorkerEvent) : WorkerState :=
  events.foldl workerStep initialWorkerState

/-- Whether a due follow-up would actually start a run. -/
def followupFires (now : ℕ) (s : WorkerState) : Bool :=
  (match s.followupAt with
   | some due => decide (due ≤ now)
   | none => false) &&
  canTriggerTraining now { s with followupAt := none }

/- ## Model versioning (`part_005`, `ml/versioning.js`) -/

/-- The metrics fields `compareMetrics` reads (the registry stores more
numeric fields — loss, precision, recall, sample counts — but only
`f1Score` and `accuracy` enter any decision). -/
structure ModelMetrics where
  f1Score : ℚ
  accuracy : ℚ
  deriving DecidableEq, Repr

/-- The version registry: versions in creation order and the index of the
active one, if any (versions are identified by timestamps in the source;
creation order makes the index model faithful). -/
structure Registry where
  versions : List ModelMetrics
  activeIdx : Option ℕ
  deriving DecidableEq, Repr

/-- The empty registry. -/
def initialRegistry : Registry := { versions := [], activeIdx := none }

/-- Metrics of the active version, if any. -/
def activeMetrics (r : Registry) : Option ModelMetrics :=
  r.activeIdx.bind (fun i => r.versions[i]?)

/-- `compareMetrics` (`part_005` lines 353-371): activate iff no previous
model exists, or the new F1 is within 0.02 of the old and the new accuracy
is within 0.02 of the old. -/
def compareMetrics (newMetrics : ModelMetrics) (oldMetrics : Option ModelMetrics) :
    Bool :=
  match oldMetrics with
  | none => true
  | some o =>
    if o.f1Score - 2/100 ≤ newMetrics.f1Score then
      if o.accuracy - 2/100 ≤ newMetrics.accuracy then true else false
    else false

/-- A completed training run as `runTraining` drives the registry
(`part_005` lines 70-106): compare against the active version's metrics,
append the new version (`createNewVersion` pushes it in creation order),
and activate it iff `compareMetrics` approved. -/
def trainOp (m : ModelMetrics) (r : Registry) : Registry :=
  if compareMetrics m (activeMetrics r) then
    { r with versions := r.versions ++ [m], activeIdx := some r.versions.length }
  else { r with versions := r.versions ++ [m] }

/-- `rollbackToPreviousVersion` (`part_005` lines 376-387): find the active
version's index in creation order; if it is 0 or the active version is
missing, do nothing; otherwise activate the version created immediately
before it — whether or not that one was ever active. -/
def rollbackToPreviousVersion (r : Registry) : Registry :=
  match r.activeIdx with
  | some (i + 1) => { r with activeIdx := some i }
  | _ => r

/-- Registry operations reachable through the public surface. -/
inductive RegistryOp where
  | train (m : ModelMetrics)
  | rollback
  deriving Repr

/-- Apply one registry operation. -/
def registryStep (r : Registry) : RegistryOp → Registry
  | .train m => trainOp m r
  | .rollback => rollbackToPreviousVersion r

/-- Run a sequence of registry operations from the empty registry. -/
def runRegistry (ops : List RegistryOp) : Registry :=
  ops.foldl registryStep initialRegistry

/-- Well-formedness: the active index, when present, points into the
version list. -/
def registryWF (r : Registry) : Bool :=
  match r.activeIdx with
  | some i => decide (i < r.versions.length)
  | none => true

/- ## Feature extraction (`src/ml/features.js`) -/

/-- A heartbeat as `extractFeatures` consumes it: the `p` and `s` fields may
be `undefined` (two-field legacy data), modelled with `Option`. -/
structure FeatureHeartbeat where
  t : ℚ
  p : Option ℚ
  f : ℚ
  s : Option ℚ
  deriving DecidableEq, Repr

/-- The `avg_speed_per_food` feature (`src/ml/features.js` lines 119 and
148-153): collect the defined heartbeat speeds; if any exist and
`foodEaten > 0`, divide their mean by `foodEaten`, otherwise 0.  The other
arguments of `extractFeatures` (moves, score, gameDuration) do not enter
this feature. -/
def avg_speed_per_food (heartbeats : List FeatureHeartbeat) (foodEaten : ℚ) : ℚ :=
  let speeds := heartbeats.filterMap (fun h => h.s)
  if 0 < speeds.length ∧ 0 < foodEaten then
    (speeds.sum / speeds.length) / foodEaten
  else 0

/-- `avg_speed_per_food` as the specification words it: mean heartbeat
speed divided by `max(foodEaten, 1)`, with degenerate input (no heartbeat
speeds) resolving to 0.  Written from the spec, for comparison with
`avg_speed_per_food`. -/
def spec_avg_speed_per_food (heartbeats : List FeatureHeartbeat)
    (foodEaten : ℚ) : ℚ :=
  let speeds := heartbeats.filterMap (fun h => h.s)
  if speeds.length = 0 then 0
  else (speeds.sum / speeds.length) / max foodEaten 1

/- ## Concrete instances used by witnesses and counterexamples -/

/-- A concrete RNG instance (places every food at cell (0,0), which a snake
starting at the center moving right never reaches). -/
def rngZero : ℤ → ℚ := fun _ => 0

/-- The heartbeat list of the C10 counterexample: a single heartbeat with a
defined speed of 150 ms. -/
def c10Heartbeats : List FeatureHeartbeat := [⟨0, none, 0, some 150⟩]

/-- The single-flight invariant: a run is in flight exactly when
`trainingInProgress` is set. -/
def workerSingleFlight (s : WorkerState) : Prop :=
  s.runsActive = if s.inProgress then 1 else 0

/-- The C8 counterexample trace: a first request starts a run at time
1000000, a second request arrives 100 ms later while the run is in
progress (setting `pendingTrainingRequest`), the run completes at
1000200 and schedules the follow-up for 1001200, and the follow-up timer
fires — 3000 ms after the run started, far less than
`DEBOUNCE_MS = 300000`. -/
def c8Trace : List WorkerEvent :=
  [.request 1000000, .request 1000100, .complete 1000200, .followup 1001200]

/-- The C9 counterexample trace: train a model A (F1 0.9), train a worse
model B (F1 0.5, not activated but still registered), train a model C
(F1 0.9, activated), then roll back. -/
def c9Trace : List RegistryOp :=
  [.train ⟨9/10, 9/10⟩, .train ⟨1/2, 9/10⟩, .train ⟨9/10, 9/10⟩, .rollback]

/-- The C2/C6 counterexample submission: score 1010 (= 101 × 10, so the
early check passes), 405 junk moves (405/101 > 4 moves per food, so the bot
heuristic fires) whose replay produces score 0 (so the replay fails),
`totalFrames = 1`, no heartbeats. -/
def c2Sub : Submission :=
  { score := 1010, speedLevel := 1, gameDuration := 200, foodEaten := 101,
    seed := 0, moves := some (List.replicate 405 ⟨0, 0, 0⟩),
    totalFrames := some 1, heartbeats := [] }

/-- The C1 witness submission: `foodEaten = 2`, `score = 20` — the exact
product, so the early check passes. -/
def c1WitnessSub : Submission :=
  { score := 20, speedLevel := 1, gameDuration := 3, foodEaten := 2,
    seed := 0, moves := some [⟨1, 5, 100⟩], totalFrames := some 40,
    heartbeats := [] }

/-- The C1 counterexample submission: `foodEaten = 1`, `score = 20` —
within the claimed ±20 tolerance but not the exact product. -/
def c1Sub : Submission :=
  { score := 20, speedLevel := 1, gameDuration := 3, foodEaten := 1,
    seed := 0, moves := some [⟨1, 5, 100⟩], totalFrames := some 40,
    heartbeats := [] }

/-- A C1 counterexample submission for the `foodEaten = 0` half:
`score = 50` with `foodEaten = 0` — outside the claimed tolerance, so the
claim says the early check rejects it; the code skips the early check
(the submission is later rejected by the replay, a different rule). -/
def c1SubZero : Submission :=
  { score := 50, speedLevel := 1, gameDuration := 2, foodEaten := 0,
    seed := 0, moves := some [⟨1, 5, 100⟩], totalFrames := some 40,
    heartbeats := [] }

/-- The C5 witness submission: one single heartbeat, `score = 150`. -/
def c5WitnessSub : Submission :=
  { score := 150, speedLevel := 1, gameDuration := 60, foodEaten := 15,
    seed := 0, moves := some [⟨1, 5, 100⟩], totalFrames := some 40,
    heartbeats := [⟨0, 0, 0, 150⟩] }

/-- The C5 counterexample submission: `score = 200` with exactly one
heartbeat in the log. -/
def c5CexSub : Submission :=
  { score := 200, speedLevel := 1, gameDuration := 80, foodEaten := 20,
    seed := 0, moves := some [⟨1, 5, 100⟩], totalFrames := some 40,
    heartbeats := [⟨1000, 1000, 7, 150⟩] }

/- ## C7: the edge-case classification table -/

/-- C7.  For every rule verdict and ML probability the arbiter classifies
exactly per the spec table — thresholds 0.3 and 0.7, with the uncertain
band closed on both ends — and raises the human-review flag exactly for
`rules_negative_ml_positive` and `ml_uncertain_rules_negative`.  (The table
partitions all of `ℚ`, so no bound on `p` is needed.) -/
theorem c7_edge_case_table (p : ℚ) :
    ((detectEdgeCase true p).edgeType =
      (if p < 3/10 then some .rules_positive_ml_negative
       else if p ≤ 7/10 then some .ml_uncertain_rules_positive
       else none)) ∧
    ((detectEdgeCase false p).edgeType =
      (if p < 3/10 then none
       else if p ≤ 7/10 then some .ml_uncertain_rules_negative
       else some .rules_negative_ml_positive)) ∧
    (∀ r : Bool, (detectEdgeCase r p).shouldFlag = true ↔
      ((detectEdgeCase r p).edgeType = some .rules_negative_ml_positive ∨
       (detectEdgeCase r p).edgeType = some .ml_uncertain_rules_negative)) := by
  refine ⟨?_, ?_, ?_⟩
  · by_cases h1 : p < 3/10
    · simp [detectEdgeCase, h1]
    · by_cases h2 : p ≤ 7/10
      · simp [detectEdgeCase, h1, h2, not_lt.mp h1]
      · simp [detectEdgeCase, h1, h2]
  · by_cases h1 : p < 3/10
    · have h2 : ¬(7/10 < p) := by linarith
      simp [detectEdgeCase, h1, h2, not_le.mpr h1]
    · by_cases h2 : p ≤ 7/10
      · simp [detectEdgeCase, h1, h2, not_lt.mp h1, not_lt.mpr h2]
      · simp [detectEdgeCase, h1, h2, not_le.mp h2]
  · intro r
    cases r with
    | true =>
      by_cases h1 : p < 3/10
      · simp [detectEdgeCase, h1]
      · by_cases h2 : p ≤ 7/10
        · simp [detectEdgeCase, h1, h2, not_lt.mp h1]
        · simp [detectEdgeCase, h1, h2]
    | false =>
      by_cases h1 : p < 3/10
      · have h3 : ¬(7/10 < p) := by linarith
        simp [detectEdgeCase, h1, h3, not_le.mpr h1]
      · by_cases h2 : p ≤ 7/10
        · simp [detectEdgeCase, h1, h2, not_lt.mp h1, not_lt.mpr h2]
        · simp [detectEdgeCase, h1, h2, not_le.mp h2]

/- ## C10: the `avg_speed_per_food` feature -/

/-- C10 counterexample.  With heartbeat speeds present and `foodEaten = 0`
the code yields 0, not the mean heartbeat speed 150 that the claim's
`mean / max(foodEaten, 1)` formula promises. -/
theorem c10_zero_food_cex :
    avg_speed_per_food c10Heartbeats 0 = 0 ∧
    spec_avg_speed_per_food c10Heartbeats 0 = 150 ∧
    (0 : ℚ) ≠ 150 := by
  refine ⟨by decide, ?_, by norm_num⟩
  simp only [spec_avg_speed_per_food, c10Heartbeats, List.filterMap]
  norm_num

/-- C10 amended.  `avg_speed_per_food` agrees with the spec's
`mean / max(foodEaten, 1)` formula whenever `foodEaten ≥ 1`; but for
`foodEaten ≤ 0` — in particular `foodEaten = 0` — the feature is 0 even when
heartbeat speeds are present, because the code guards on `foodEaten > 0`
rather than taking `max(foodEaten, 1)`. -/
theorem c10_avg_speed_per_food (heartbeats : List FeatureHeartbeat) (foodEaten : ℚ) :
    (1 ≤ foodEaten →
      avg_speed_per_food heartbeats foodEaten =
        spec_avg_speed_per_food heartbeats foodEaten) ∧
    (foodEaten ≤ 0 → avg_speed_per_food heartbeats foodEaten = 0) := by
  unfold avg_speed_per_food spec_avg_speed_per_food
  constructor
  · intro h1
    rcases Nat.eq_zero_or_pos (heartbeats.filterMap (fun h => h.s)).length with h0 | hpos
    · simp [h0]
    · have hfe : (0:ℚ) < foodEaten := lt_of_lt_of_le one_pos h1
      rw [if_pos ⟨hpos, hfe⟩, if_neg (Nat.pos_iff_ne_zero.mp hpos)]
      rw [max_eq_left h1]
  · intro h0
    rw [if_neg]
    rintro ⟨-, hfe⟩
    exact absurd h0 (not_le.mpr hfe)

/-- C10 witness: the amended theorem at a concrete input
(`foodEaten = 3`, one heartbeat of speed 150). -/
theorem c10_avg_speed_per_food_witness :
    (1 : ℚ) ≤ 3 ∧
      avg_speed_per_food c10Heartbeats 3 = spec_avg_speed_per_food c10Heartbeats 3 :=
  ⟨by norm_num, (c10_avg_speed_per_food c10Heartbeats 3).1 (by norm_num)⟩

/- ## C8: training worker concurrency -/

lemma canTrigger_not_inProgress (now : ℕ) (s : WorkerState)
    (h : canTriggerTraining now s = true) : s.inProgress = false := by
  unfold canTriggerTraining at h
  simp only [Bool.and_eq_true, Bool.not_eq_true'] at h
  exact h.2

lemma workerStep_singleFlight (s : WorkerState) (e : WorkerEvent)
    (h : workerSingleFlight s) : workerSingleFlight (workerStep s e) := by
  unfold workerSingleFlight at h ⊢
  obtain ⟨ip, pend, ltt, fua, ra, rs⟩ := s
  cases e with
  | request now =>
    by_cases hc : canTriggerTraining now ⟨ip, pend, ltt, fua, ra, rs⟩ = true
    · have hip : ip = false := canTrigger_not_inProgress _ _ hc
      subst hip
      simp only [Bool.false_eq_true, if_false] at h
      subst h
      simp [workerStep, requestStep, hc, startRun]
    · simpa [workerStep, requestStep, hc] using h
  | complete now =>
    cases hip : ip with
    | true =>
      subst hip
      simp only [if_true] at h
      cases pend <;> simp [workerStep, completeStep, h]
    | false =>
      subst hip
      simpa [workerStep, completeStep] using h
  | followup now =>
    cases fua with
    | none => simpa [workerStep, followupStep] using h
    | some due =>
      by_cases hdue : due ≤ now
      · by_cases hc : canTriggerTraining now ⟨ip, pend, ltt, none, ra, rs⟩ = true
        · have hip : ip = false := canTrigger_not_inProgress _ _ hc
          subst hip
          simp only [Bool.false_eq_true, if_false] at h
          subst h
          simp [workerStep, followupStep, hdue, hc, startRun]
        · simpa [workerStep, followupStep, hdue, hc] using h
      · simpa [workerStep, followupStep, hdue] using h

lemma runWorker_singleFlight_aux (events : List WorkerEvent) :
    ∀ s : WorkerState, workerSingleFlight s →
      workerSingleFlight (events.foldl workerStep s) := by
  induction events with
  | nil => intro s h; exact h
  | cons e rest ih =>
    intro s h
    exact ih (workerStep s e) (workerStep_singleFlight s e h)

/-- C8 amended.  (i) At most one training run is in flight at any moment:
after any event sequence, the number of in-flight `train()` calls is 1 when
`trainingInProgress` is set and 0 otherwise.  (ii) A pending request only
yields a follow-up run conditionally: when the scheduled follow-up timer
fires, a new run starts exactly when the worker is idle **and** at least
`DEBOUNCE_MS` has elapsed since the previous run *started*
(`canTriggerTraining`); otherwise the callback returns and the request is
dropped. -/
theorem c8_training_concurrency :
    (∀ events : List WorkerEvent,
      (runWorker events).runsActive =
        if (runWorker events).inProgress then 1 else 0) ∧
    (∀ (events : List WorkerEvent) (now : ℕ),
      (runWorker (events ++ [.followup now])).runsStarted =
        (runWorker events).runsStarted +
          (if followupFires now (runWorker events) then 1 else 0)) := by
  constructor
  · intro events
    exact runWorker_singleFlight_aux events initialWorkerState rfl
  · intro events now
    unfold runWorker
    rw [List.foldl_append]
    set s := events.foldl workerStep initialWorkerState with hs
    simp only [List.foldl_cons, List.foldl_nil]
    show (followupStep now s).runsStarted = _
    unfold followupStep followupFires
    cases hf : s.followupAt with
    | none => simp
    | some due =>
      simp only
      by_cases hdue : due ≤ now
      · by_cases hc : canTriggerTraining now { s with followupAt := none } = true
        · simp [hdue, hc, startRun]
        · simp [hdue, hc]
      · simp [hdue]

/-- C8 counterexample.  On `c8Trace` a request arrived while a run was in
progress, yet after the scheduled follow-up fires only one run was ever
started, the pending flag is cleared and nothing remains scheduled: the
"in-progress + pending" pair dropped the request (the claim demands a
second, follow-up run, i.e. `runsStarted = 2`). -/
theorem c8_pending_dropped_cex :
    (runWorker c8Trace).runsStarted = 1 ∧
    (runWorker c8Trace).pending = false ∧
    (runWorker c8Trace).inProgress = false ∧
    (runWorker c8Trace).followupAt = none ∧
    (runWorker c8Trace).runsStarted ≠ 2 := by
  refine ⟨by decide, by decide, by decide, by decide, by decide⟩

/- ## C9: model versioning -/

lemma compareMetrics_some_iff (m o : ModelMetrics) :
    compareMetrics m (some o) = true ↔
      (o.f1Score - 2/100 ≤ m.f1Score ∧ o.accuracy - 2/100 ≤ m.accuracy) := by
  show (if o.f1Score - 2/100 ≤ m.f1Score then
          if o.accuracy - 2/100 ≤ m.accuracy then true else false
        else false) = true ↔ _
  split_ifs with h1 h2 <;> simp_all

/-- C9 amended.  For a well-formed registry (active index in range):
(i) a freshly trained model is activated iff no previous active model
exists, or its F1 and accuracy each regress by at most 0.02 against the
active model — exactly the claim's activation rule; and (ii) a *training*
step never drops the active F1 by more than 0.02.  The global invariant
fails only through `rollbackToPreviousVersion`, which activates the
creation-order predecessor of the active version (see the
counterexample). -/
theorem c9_activation_rule (r : Registry) (m : ModelMetrics)
    (hwf : registryWF r = true) :
    (((trainOp m r).activeIdx = some r.versions.length) ↔
      (activeMetrics r = none ∨
        ∃ o, activeMetrics r = some o ∧
          o.f1Score - 2/100 ≤ m.f1Score ∧ o.accuracy - 2/100 ≤ m.accuracy)) ∧
    (∀ o o', activeMetrics r = some o →
      activeMetrics (trainOp m r) = some o' →
      o.f1Score - 2/100 ≤ o'.f1Score) := by
  constructor
  · by_cases hcmp : compareMetrics m (activeMetrics r) = true
    · constructor
      · intro _
        cases hact : activeMetrics r with
        | none => exact Or.inl rfl
        | some o =>
          rw [hact] at hcmp
          exact Or.inr ⟨o, rfl, (compareMetrics_some_iff m o).mp hcmp⟩
      · intro _
        simp [trainOp, hcmp]
    · constructor
      · intro hcontra
        have hidx : (trainOp m r).activeIdx = r.activeIdx := by
          simp [trainOp, hcmp]
        rw [hidx] at hcontra
        unfold registryWF at hwf
        rw [hcontra] at hwf
        simp at hwf
      · rintro (hnone | ⟨o, ho, h1, h2⟩)
        · exfalso
          apply hcmp
          rw [hnone]
          rfl
        · exfalso
          apply hcmp
          rw [ho]
          exact (compareMetrics_some_iff m o).mpr ⟨h1, h2⟩
  · intro o o' ho ho'
    by_cases hcmp : compareMetrics m (activeMetrics r) = true
    · have hm : o' = m := by
        have htr : trainOp m r =
            { r with versions := r.versions ++ [m],
                     activeIdx := some r.versions.length } := by
          simp [trainOp, hcmp]
        rw [htr] at ho'
        unfold activeMetrics at ho'
        have : (r.versions ++ [m])[r.versions.length]? = some o' := ho'
        rw [List.getElem?_concat_length] at this
        injection this with h
        exact h.symm
      subst hm
      rw [ho] at hcmp
      exact ((compareMetrics_some_iff o' o).mp hcmp).1
    · have hsame : activeMetrics (trainOp m r) = activeMetrics r := by
        have htr : trainOp m r = { r with versions := r.versions ++ [m] } := by
          simp [trainOp, hcmp]
        rw [htr]
        unfold activeMetrics
        cases hi : r.activeIdx with
        | none => rfl
        | some i =>
          show (r.versions ++ [m])[i]? = r.versions[i]?
          have hio : r.versions[i]? = some o := by
            unfold activeMetrics at ho
            rw [hi] at ho
            exact ho
          have hlt : i < r.versions.length :=
            (List.getElem?_eq_some.mp hio).1
          rw [List.getElem?_append, if_pos hlt]
      rw [hsame, ho] at ho'
      have heq : o = o' := by injection ho'
      subst heq
      linarith

/-- C9 witness: the activation rule applied to a concrete registry (one
active model with F1 = accuracy = 0.9) and a new model with F1 = accuracy =
0.89, which the rule activates. -/
theorem c9_activation_rule_witness :
    registryWF { versions := [⟨9/10, 9/10⟩], activeIdx := some 0 } = true ∧
    ((trainOp ⟨89/100, 89/100⟩
        { versions := [⟨9/10, 9/10⟩], activeIdx := some 0 }).activeIdx = some 1 ↔
      (activeMetrics { versions := [⟨9/10, 9/10⟩], activeIdx := some 0 } = none ∨
        ∃ o, activeMetrics { versions := [⟨9/10, 9/10⟩], activeIdx := some 0 } = some o ∧
          o.f1Score - 2/100 ≤ (89:ℚ)/100 ∧ o.accuracy - 2/100 ≤ (89:ℚ)/100)) := by
  refine ⟨by decide, ?_⟩
  exact (c9_activation_rule { versions := [⟨9/10, 9/10⟩], activeIdx := some 0 }
    ⟨89/100, 89/100⟩ (by decide)).1

attribute [local semireducible] Rat.mul Rat.add Rat.sub Rat.inv in
/-- C9 counterexample.  Before the rollback the active model has F1 = 0.9;
the rollback activates the creation-order predecessor — the never-active
model B with F1 = 0.5 — so the active F1 drops far below
(previous active F1 − 0.02), falsifying the claimed registry-wide
invariant. -/
theorem c9_rollback_breaks_monotonicity_cex :
    activeMetrics (runRegistry [.train ⟨9/10, 9/10⟩, .train ⟨1/2, 9/10⟩,
        .train ⟨9/10, 9/10⟩]) = some ⟨9/10, 9/10⟩ ∧
    activeMetrics (runRegistry c9Trace) = some ⟨1/2, 9/10⟩ ∧
    ¬((9:ℚ)/10 - 2/100 ≤ 1/2) := by
  refine ⟨by decide, by decide, by norm_num⟩

/- ## C2 and C6: pipeline structure -/

set_option maxHeartbeats 1600000 in
lemma scorePipeline_fst_eq (sub : Submission) (sessionSeed : Option ℤ)
    (rng : ℤ → ℚ) (p : Option ℚ) :
    (scorePipeline sub sessionSeed rng p).1 =
      firstHit (stagesActual sub sessionSeed rng) := by
  obtain ⟨sc, sp, gd, fe, sd, mvs, tf, hb⟩ := sub
  unfold scorePipeline stagesActual
  cases mvs with
  | none =>
    dsimp only
    split_ifs <;> simp [firstHit]
  | some mv =>
    dsimp only
    split_ifs <;> simp [firstHit]

/-- C2 amended.  The rule detectors run in the fixed order score-vs-food,
speed floor, session seed, missing-moves gate, **heartbeat consistency,
pause-abuse, replay, bot heuristic** — the first to fire short-circuiting
the rest — i.e. the handler's decision equals the first firing stage of
`stagesActual`.  The bot heuristic is the final rule and runs *after* the
replay engine, not before as claimed. -/
theorem c2_detector_order (sub : Submission) (sessionSeed : Option ℤ)
    (rng : ℤ → ℚ) (p : Option ℚ) :
    (scorePipeline sub sessionSeed rng p).1 =
      firstHit (stagesActual sub sessionSeed rng) :=
  scorePipeline_fst_eq sub sessionSeed rng p

set_option maxRecDepth 10000 in
set_option maxHeartbeats 4000000 in
attribute [local semireducible] Rat.mul Rat.add Rat.sub Rat.inv in
/-- C2 counterexample.  On `c2Sub` both the replay check and the bot
heuristic would fire; the handler rejects with `replay_fail`, while the
claimed order (pause, bot, heartbeat, replay — replay last) would reject
with `bot_usage`: the bot heuristic is *not* evaluated before the replay
engine, and replay is not the final rule. -/
theorem c2_detector_order_cex :
    (scorePipeline c2Sub (some 0) rngZero none).1 =
        .rejectedCheat .replay_fail ∧
    firstHit (stagesClaimed c2Sub (some 0) rngZero) =
        .rejectedCheat .bot_usage ∧
    Decision.rejectedCheat .replay_fail ≠ .rejectedCheat .bot_usage := by
  refine ⟨by decide, by decide, by decide⟩

/-- C6.  Shadow mode: the accept/reject decision and the recorded cheat
verdict of the `/api/score` handler are identical for any two ML
probabilities — including `none`, modelling an unavailable model or a
prediction failure, and a fortiori any two values in [0,1].  The
probability only feeds the edge-case record (the second component). -/
theorem c6_shadow_mode (sub : Submission) (sessionSeed : Option ℤ)
    (rng : ℤ → ℚ) (p q : Option ℚ) :
    (scorePipeline sub sessionSeed rng p).1 =
      (scorePipeline sub sessionSeed rng q).1 := by
  rw [scorePipeline_fst_eq, scorePipeline_fst_eq]

/- ## C1: the early score-vs-food check -/

lemma firstHit_ne (l : List (Option Decision)) (k : CheatKind)
    (h : ∀ o ∈ l, o ≠ some (.rejectedCheat k)) :
    firstHit l ≠ .rejectedCheat k := by
  induction l with
  | nil => simp [firstHit]
  | cons a rest ih =>
    cases a with
    | none =>
      exact ih (fun o ho => h o (List.mem_cons_of_mem _ ho))
    | some d =>
      have hd := h (some d) (List.mem_cons_self _ _)
      simp only [firstHit]
      intro hcontra
      exact hd (by rw [hcontra])

/-- C1 amended.  For every submission passing field validation, the early
check rejects with `score_mismatch` **iff** `foodEaten` is non-zero and
`score ≠ foodEaten × 10` exactly: there is no ±20 tolerance at low food
(a submission with `foodEaten = 1`, `score = 20` is rejected), and the
check is skipped entirely when `foodEaten = 0` (falsy), however large the
score. -/
theorem c1_early_score_check (sub : Submission) (sessionSeed : Option ℤ)
    (rng : ℤ → ℚ) (p : Option ℚ) (hv : ¬failsFieldValidation sub) :
    ((scorePipeline sub sessionSeed rng p).1 = .rejectedCheat .score_mismatch ↔
      earlyScoreMismatch sub) := by
  rw [scorePipeline_fst_eq]
  unfold stagesActual
  rw [if_neg hv]
  by_cases he : earlyScoreMismatch sub
  · rw [if_pos he]
    simp [firstHit, he, List.cons_append]
  · rw [if_neg he]
    simp only [he, iff_false]
    apply firstHit_ne
    intro o ho
    simp only [List.cons_append, List.mem_cons] at ho
    rcases ho with rfl | rfl | rfl | rfl | ho
    · simp
    · simp
    · split <;> simp
    · split <;> simp
    · cases hm : sub.moves with
      | none =>
        rw [hm] at ho
        simp only [List.nil_append, List.mem_cons, List.not_mem_nil,
          or_false] at ho
        subst ho
        split <;> simp
      | some mv =>
        rw [hm] at ho
        simp only [List.nil_append, List.mem_cons, List.not_mem_nil,
          or_false] at ho
        rcases ho with rfl | rfl | rfl | rfl <;> (split <;> simp)

attribute [local semireducible] Rat.mul Rat.add Rat.sub Rat.inv in
/-- C1 witness: the amended theorem at `c1WitnessSub`. -/
theorem c1_early_score_check_witness :
    ¬failsFieldValidation c1WitnessSub ∧
      ((scorePipeline c1WitnessSub (some 0) rngZero none).1 =
          .rejectedCheat .score_mismatch ↔ earlyScoreMismatch c1WitnessSub) :=
  ⟨by decide, c1_early_score_check c1WitnessSub (some 0) rngZero none (by decide)⟩

set_option maxRecDepth 10000 in
attribute [local semireducible] Rat.mul Rat.add Rat.sub Rat.inv in
/-- C1 counterexample.  With `foodEaten = 1`, `score = 20` the handler
rejects with `score_mismatch` although the claimed tolerance (20 at
`foodEaten ≤ 2`) accepts it; and with `foodEaten = 0`, `score = 50` the
claimed check (tolerance 20, applying at `foodEaten = 0`) would reject as
`score_mismatch`, but the code skips the early check and the rejection
that eventually happens is the replay's, not the early check's. -/
theorem c1_early_check_no_tolerance_cex :
    (scorePipeline c1Sub (some 0) rngZero none).1 =
        .rejectedCheat .score_mismatch ∧
    ¬specEarlyScoreMismatch c1Sub.foodEaten c1Sub.score ∧
    specEarlyScoreMismatch c1SubZero.foodEaten c1SubZero.score ∧
    (scorePipeline c1SubZero (some 0) rngZero none).1 =
        .rejectedCheat .replay_fail := by
  refine ⟨by decide, by decide, by decide, by decide⟩

/- ## C5: the heartbeat-count gate -/

/-- C5 amended.  (i) With fewer than 2 heartbeats, `validateHeartbeats`
returns `valid = false, suspicious = true` — it flags rather than
abstains.  (ii) Consequently a submission that reaches the heartbeat stage
(field validation, early score check, speed floor and session all passing,
moves present) with a non-empty heartbeat log of fewer than 2 entries and
`score > 100` is rejected as `timing_manipulation`.  (iii) The detector
runs only when the heartbeat log is non-empty and `score > 100`: otherwise
the submission is never rejected as `timing_manipulation`. -/
lemma validateHeartbeats_short (heartbeats : List Heartbeat)
    (h : heartbeats.length < 2) : validateHeartbeats heartbeats = (false, true) := by
  unfold validateHeartbeats
  rw [if_pos h]

theorem c5_heartbeat_gate :
    (∀ heartbeats : List Heartbeat, heartbeats.length < 2 →
      validateHeartbeats heartbeats = (false, true)) ∧
    (∀ (sub : Submission) (sessionSeed : Option ℤ) (rng : ℤ → ℚ)
        (p : Option ℚ) (mv : List Move),
      ¬failsFieldValidation sub → ¬earlyScoreMismatch sub →
      ¬speedFloorFails sub → sessionSeed = some sub.seed →
      sub.moves = some mv → sub.heartbeats ≠ [] →
      sub.heartbeats.length < 2 → 100 < sub.score →
      (scorePipeline sub sessionSeed rng p).1 =
        .rejectedCheat .timing_manipulation) ∧
    (∀ (sub : Submission) (sessionSeed : Option ℤ) (rng : ℤ → ℚ)
        (p : Option ℚ),
      (sub.heartbeats = [] ∨ sub.score ≤ 100) →
      (scorePipeline sub sessionSeed rng p).1 ≠
        .rejectedCheat .timing_manipulation) := by
  refine ⟨?_, ?_, ?_⟩
  · exact validateHeartbeats_short
  · intro sub sessionSeed rng p mv hv he hs hsess hm hne hlen hsc
    have hfires : heartbeatStageFires sub :=
      ⟨hne, hsc, Or.inr (by rw [validateHeartbeats_short sub.heartbeats hlen])⟩
    rw [scorePipeline_fst_eq]
    unfold stagesActual
    rw [if_neg hv, if_neg he, if_neg hs, if_neg (by rw [hsess]; simp), hm]
    simp [firstHit, List.cons_append, hfires]
  · intro sub sessionSeed rng p hside
    have hnofire : ¬heartbeatStageFires sub := by
      rintro ⟨hne, hsc, -⟩
      rcases hside with hempty | hle
      · exact hne hempty
      · exact absurd hsc (not_lt.mpr hle)
    rw [scorePipeline_fst_eq]
    apply firstHit_ne
    intro o ho
    unfold stagesActual at ho
    simp only [List.cons_append, List.mem_cons] at ho
    rcases ho with rfl | rfl | rfl | rfl | ho
    · split <;> simp
    · split <;> simp
    · split <;> simp
    · split <;> simp
    · cases hm : sub.moves with
      | none =>
        rw [hm] at ho
        simp only [List.nil_append, List.mem_cons, List.not_mem_nil,
          or_false] at ho
        subst ho
        split <;> simp
      | some mv =>
        rw [hm] at ho
        simp only [List.nil_append, List.mem_cons, List.not_mem_nil,
          or_false] at ho
        rcases ho with rfl | rfl | rfl | rfl
        · rw [if_neg hnofire]
          simp
        · split <;> simp
        · split <;> simp
        · split <;> simp

set_option maxRecDepth 10000 in
attribute [local semireducible] Rat.mul Rat.add Rat.sub Rat.inv in
/-- C5 witness: the amended theorem's pipeline clause at `c5WitnessSub`. -/
theorem c5_heartbeat_gate_witness :
    c5WitnessSub.heartbeats ≠ [] ∧ c5WitnessSub.heartbeats.length < 2 ∧
    (100 : ℚ) < c5WitnessSub.score ∧
    (scorePipeline c5WitnessSub (some 0) rngZero none).1 =
      .rejectedCheat .timing_manipulation :=
  ⟨by decide, by decide, by decide,
   c5_heartbeat_gate.2.1 c5WitnessSub (some 0) rngZero none [⟨1, 5, 100⟩]
     (by decide) (by decide) (by decide) rfl rfl (by decide) (by decide)
     (by decide)⟩

set_option maxRecDepth 10000 in
attribute [local semireducible] Rat.mul Rat.add Rat.sub Rat.inv in
/-- C5 counterexample.  A submission with exactly one heartbeat and score
200 is rejected as `timing_manipulation` purely on account of the
heartbeat count: `validateHeartbeats` marks fewer than 2 heartbeats as
suspicious (`(false, true)`) instead of abstaining with a non-suspicious
result as the claim states. -/
theorem c5_single_heartbeat_cex :
    c5CexSub.heartbeats.length = 1 ∧
    validateHeartbeats c5CexSub.heartbeats = (false, true) ∧
    (scorePipeline c5CexSub (some 0) rngZero none).1 =
      .rejectedCheat .timing_manipulation := by
  refine ⟨by decide, by decide, by decide⟩

/- ## C4: replay-loop frame bound -/

lemma replayStep_state_frameCount (rng : ℤ → ℚ) (seed : ℤ) (moves : List Move)
    (s : ReplayState) :
    (replayStep rng seed moves s).state.frameCount = s.frameCount + 1 := by
  unfold replayStep
  dsimp only
  repeat' split
  all_goals rfl

lemma replayStep_cont_frameCount (rng : ℤ → ℚ) (seed : ℤ) (moves : List Move)
    (s s1 : ReplayState) (h : replayStep rng seed moves s = .cont s1) :
    s1.frameCount = s.frameCount + 1 ∧ s1.frameCount < 10000 := by
  have hfc := replayStep_state_frameCount rng seed moves s
  rw [h] at hfc
  simp only [StepOut.state] at hfc
  refine ⟨hfc, ?_⟩
  rw [hfc]
  unfold replayStep at h
  dsimp only at h
  repeat' split at h
  all_goals try injection h
  all_goals omega

lemma runLoop_frameCount_le (rng : ℤ → ℚ) (seed : ℤ) (moves : List Move)
    (maxFrames : ℕ) :
    ∀ (fuel : ℕ) (s : ReplayState),
      (runLoop rng seed moves maxFrames fuel s).state.frameCount ≤
        s.frameCount + fuel := by
  intro fuel
  induction fuel with
  | zero =>
    intro s
    simp [runLoop, LoopResult.state]
  | succ n ih =>
    intro s
    unfold runLoop
    split_ifs with h
    · cases hstep : replayStep rng seed moves s with
      | cont s1 =>
        dsimp only
        have h1 := (replayStep_cont_frameCount rng seed moves s s1 hstep).1
        have := ih s1
        omega
      | stop s1 =>
        dsimp only
        have h1 := replayStep_state_frameCount rng seed moves s
        rw [hstep] at h1
        simp only [StepOut.state] at h1
        simp only [LoopResult.state]
        omega
      | bad s1 =>
        dsimp only
        have h1 := replayStep_state_frameCount rng seed moves s
        rw [hstep] at h1
        simp only [StepOut.state] at h1
        simp only [LoopResult.state]
        omega
    · simp only [LoopResult.state]
      omega

lemma runLoop_frameCount_cap (rng : ℤ → ℚ) (seed : ℤ) (moves : List Move)
    (maxFrames : ℕ) :
    ∀ (fuel : ℕ) (s : ReplayState), s.frameCount < 10000 →
      (runLoop rng seed moves maxFrames fuel s).state.frameCount ≤ 10000 := by
  intro fuel
  induction fuel with
  | zero =>
    intro s hs
    simp only [runLoop, LoopResult.state]
    omega
  | succ n ih =>
    intro s hs
    unfold runLoop
    split_ifs with h
    · cases hstep : replayStep rng seed moves s with
      | cont s1 =>
        dsimp only
        exact ih s1 (replayStep_cont_frameCount rng seed moves s s1 hstep).2
      | stop s1 =>
        dsimp only
        have h1 := replayStep_state_frameCount rng seed moves s
        rw [hstep] at h1
        simp only [StepOut.state] at h1
        simp only [LoopResult.state]
        omega
      | bad s1 =>
        dsimp only
        have h1 := replayStep_state_frameCount rng seed moves s
        rw [hstep] at h1
        simp only [StepOut.state] at h1
        simp only [LoopResult.state]
        omega
    · simp only [LoopResult.state]
      omega

/-- C4 amended.  The replay's main loop always terminates within the
10000-frame safety cap, and when `totalFrames` is non-zero it executes at
most `totalFrames + 10` frames (hence at most
`min(totalFrames + 10, 10000)`).  When `totalFrames = 0` — which is falsy
in JavaScript — `maxFrames` falls back to 10000, so only the 10000-frame
cap applies, not the claimed 10-frame bound. -/
theorem c4_frame_cap (rng : ℤ → ℚ) (seed : ℤ) (moves : List Move)
    (totalFrames : ℕ) :
    framesExecuted rng seed moves totalFrames ≤ 10000 ∧
    (totalFrames ≠ 0 →
      framesExecuted rng seed moves totalFrames ≤ totalFrames + 10) := by
  constructor
  · exact runLoop_frameCount_cap rng seed moves (maxFramesOf totalFrames)
      (maxFramesOf totalFrames) (initialReplayState rng seed)
      (by simp [initialReplayState])
  · intro h0
    have := runLoop_frameCount_le rng seed moves (maxFramesOf totalFrames)
      (maxFramesOf totalFrames) (initialReplayState rng seed)
    unfold framesExecuted replayRun
    unfold maxFramesOf at this ⊢
    rw [if_neg h0] at this ⊢
    simpa [initialReplayState] using this

/-- C4 witness: the frame bound at `totalFrames = 40` (the loop actually
stops at the wall collision on frame 15). -/
theorem c4_frame_cap_witness :
    (40 : ℕ) ≠ 0 ∧
    framesExecuted rngZero 0 [] 40 ≤ 10000 ∧
    framesExecuted rngZero 0 [] 40 ≤ 40 + 10 :=
  ⟨by decide, (c4_frame_cap rngZero 0 [] 40).1,
   (c4_frame_cap rngZero 0 [] 40).2 (by decide)⟩

set_option maxRecDepth 10000 in
attribute [local semireducible] Rat.mul Rat.add Rat.sub Rat.inv in
/-- C4 counterexample.  With `totalFrames = 0` and no moves the loop runs
15 frames (straight into the right wall), exceeding the claimed bound
`min(totalFrames + 10, 10000) = 10`: zero is falsy, so the source picks
the 10000-frame default instead of `0 + 10`. -/
theorem c4_totalframes_zero_cex :
    framesExecuted rngZero 0 [] 0 = 15 ∧
    ¬(framesExecuted rngZero 0 [] 0 ≤ min (0 + 10) 10000) := by
  refine ⟨by decide, by decide⟩

/- ## C3: the duration tolerance -/

/-- C3 amended.  The `part_009` replay engine (the ML server's) accepts the
submitted duration iff
`|floor(simulatedClock/1000) − gameDuration| ≤ max(10, gameDuration × 0.20)`
(given the score and food-count checks pass).  The tolerance does **not**
hold "wherever the replay engine is implemented": the legacy `src/server.js`
engine recomputes an approximate clock and uses
`max(5, gameDuration × 0.15)` — see the counterexample. -/
theorem c3_duration_tolerance (rng : ℤ → ℚ) (seed : ℤ) (moves : List Move)
    (expectedScore expectedFoodEaten gameDuration : ℚ) (totalFrames : ℕ)
    (h1 : validateGameReplay rng seed moves expectedScore expectedFoodEaten
            gameDuration totalFrames ≠ .tooManyFood)
    (h2 : validateGameReplay rng seed moves expectedScore expectedFoodEaten
            gameDuration totalFrames ≠ .scoreMismatch)
    (h3 : validateGameReplay rng seed moves expectedScore expectedFoodEaten
            gameDuration totalFrames ≠ .foodMismatch) :
    (validateGameReplay rng seed moves expectedScore expectedFoodEaten
        gameDuration totalFrames = .ok ↔
      specDurationAccepted
        (replaySimulatedDuration rng seed moves totalFrames) gameDuration) := by
  unfold validateGameReplay at h1 h2 h3
  unfold validateGameReplay replaySimulatedDuration specDurationAccepted
  revert h1 h2 h3
  cases hr : replayRun rng seed moves totalFrames with
  | tooManyFood s =>
    intro h1 h2 h3
    exact absurd rfl h1
  | finished s =>
    intro h1 h2 h3
    dsimp only [LoopResult.state] at h2 h3 ⊢
    split_ifs at h2 h3 ⊢ <;>
      first
        | exact absurd rfl h2
        | exact absurd rfl h3
        | (rename_i hdur
           exact ⟨fun hcontra => hcontra.elim,
                  fun hle => not_le.mpr hdur hle⟩)
        | (rename_i hdur
           exact ⟨fun _ => not_lt.mp hdur, fun _ => rfl⟩)

set_option maxRecDepth 10000 in
attribute [local semireducible] Rat.mul Rat.add Rat.sub Rat.inv in
/-- C3 witness: the amended tolerance at a concrete passing input
(no moves, `totalFrames = 40`, submitted duration 2 s — the simulation
wall-collides at frame 15 with a 2250 ms clock). -/
theorem c3_duration_tolerance_witness :
    (validateGameReplay rngZero 0 [] 0 0 2 40 ≠ .tooManyFood ∧
     validateGameReplay rngZero 0 [] 0 0 2 40 ≠ .scoreMismatch ∧
     validateGameReplay rngZero 0 [] 0 0 2 40 ≠ .foodMismatch) ∧
    (validateGameReplay rngZero 0 [] 0 0 2 40 = .ok ↔
      specDurationAccepted (replaySimulatedDuration rngZero 0 [] 40) 2) :=
  ⟨⟨by decide, by decide, by decide⟩,
   c3_duration_tolerance rngZero 0 [] 0 0 2 40
     (by decide) (by decide) (by decide)⟩

set_option maxRecDepth 10000 in
attribute [local semireducible] Rat.mul Rat.add Rat.sub Rat.inv in
/-- C3 counterexample.  On the legacy `src/server.js` engine (no moves,
`totalFrames = 40`, submitted duration 10 s, simulated duration 2 s) the
duration difference of 8 s is *within* the claimed
`max(10, duration × 0.20) = 10` tolerance, yet the engine rejects with a
duration mismatch, because it actually allows only
`max(5, duration × 0.15) = 5`. -/
theorem c3_duration_tolerance_cex :
    legacyValidateGameReplay rngZero 0 [] 0 0 10 40 = .durationMismatch ∧
    specDurationAccepted (legacySimulatedDuration rngZero 0 [] 40) 10 := by
  refine ⟨by decide, by decide⟩

end Xnake
